import Mathlib

/-!
Formal model of the git-bisect-tool repository (Python sources under
git_bisect_tool/).  Pure data and decision logic is translated directly;
filesystem, subprocess and git effects are represented by explicit oracle
structures (the answers the external world gives) and by event traces (the
effects the code would perform, in order).  Python floats are modelled as
exact rationals; every duration arising in the program and its tests is
exactly representable.
-/

namespace GitBisectTool

/-- Record of a single bisect step (state.py, dataclass `BisectStep`). -/
structure BisectStep where
  commit : String
  result : String
  exit_code : Int
  timestamp : String
  duration_seconds : ℚ
deriving DecidableEq

/-- A loosely-typed step record: a Python dict carrying the step's keys, each
possibly absent (`step.get(...)` style access tolerates absence, `step[...]`
raises).  The program's own dicts always carry exactly these five keys. -/
structure StepDict where
  commit : Option String
  result : Option String
  exit_code : Option Int
  timestamp : Option String
  duration_seconds : Option ℚ
deriving DecidableEq

/-- One entry of `BisectState.steps`, whose Python type is
`List[Union[BisectStep, dict]]`.  Python `==` distinguishes a `BisectStep`
from a dict of equal contents, and so does equality here. -/
inductive StepEntry where
  | typed (s : BisectStep)
  | loose (d : StepDict)
deriving DecidableEq

/-- Persistent session state (state.py, dataclass `BisectState`), with the
dataclass defaults. -/
structure BisectState where
  repo_path : String
  branch : String
  good_commit : String
  bad_commit : String
  test_script : String
  worktree_path : Option String := none
  started_at : String := ""
  steps : List StepEntry := []
  current_commit : Option String := none
  found_bad_commit : Option String := none
  status : String := "in_progress"
deriving DecidableEq

/-- `BisectState.add_step` (state.py:83-89): appends to the history. -/
def BisectState.add_step (st : BisectState) (s : BisectStep) : BisectState :=
  { st with steps := st.steps ++ [StepEntry.typed s] }

/-- Duration contributed by one history entry, as `get_total_duration` reads
it: the field for a `BisectStep`, `step.get('duration_seconds', 0)` for a
dict. -/
def entryDuration : StepEntry → ℚ
  | StepEntry.typed s => s.duration_seconds
  | StepEntry.loose d => d.duration_seconds.getD 0

/-- Round a rational to the nearest integer, ties to even — the IEEE 754
default rounding. -/
def roundNearestEven (r : ℚ) : ℤ :=
  if r - ⌊r⌋ < 1/2 then ⌊r⌋
  else if 1/2 < r - ⌊r⌋ then ⌊r⌋ + 1
  else if 2 ∣ ⌊r⌋ then ⌊r⌋ else ⌊r⌋ + 1

/-- Round a positive rational to 53 significant bits: scale into
[2^52, 2^53) by the floor base-2 logarithm, round to nearest-even, scale
back. -/
def flPos (q : ℚ) : ℚ :=
  (roundNearestEven (q * 2 ^ ((52 : ℤ) - Int.log 2 q)) : ℚ) *
    2 ^ (Int.log 2 q - 52)

/-- Rounding of an exact rational to the nearest IEEE binary64 value, ties
to even.  This models the normal range, which every float the program
handles inhabits; overflow to infinity and gradual underflow are outside
the model. -/
def fl (q : ℚ) : ℚ :=
  if q = 0 then 0 else if q < 0 then -flPos (-q) else flPos q

/-- Python float addition: binary64 arithmetic rounds the exact sum of its
operands. -/
def addF (a b : ℚ) : ℚ := fl (a + b)

/-- `BisectState.get_total_duration` (state.py:91-99): left fold from 0.0
accumulating with `total += ...` on Python floats — IEEE binary64
addition, hence order-dependent; dict steps contribute
`step.get('duration_seconds', 0)`. -/
def BisectState.get_total_duration (st : BisectState) : ℚ :=
  st.steps.foldl
    (fun total step =>
      match step with
      | StepEntry.typed s => addF total s.duration_seconds
      | StepEntry.loose d => addF total (d.duration_seconds.getD 0))
    0

/-- JSON values, as produced by Python's `json` module.  Python keeps int and
float apart when dumping and loading, hence separate constructors. -/
inductive Json where
  | null
  | str (s : String)
  | int (n : Int)
  | num (q : ℚ)
  | bool (b : Bool)
  | arr (xs : List Json)
  | obj (kvs : List (String × Json))

/-- Lookup in a JSON object.  Python's `json.load` keeps the last occurrence
of a duplicated key, so the search prefers later pairs. -/
def jlookup (kvs : List (String × Json)) (k : String) : Option Json :=
  match kvs with
  | [] => none
  | (k1, v) :: rest =>
    match jlookup rest k with
    | some r => some r
    | none => if k1 = k then some v else none

/-- Exceptions `BisectState.load` can raise: `json.JSONDecodeError` from an
unparseable file, `KeyError` from a missing required top-level field, and
`TypeError` from `BisectStep(**s)` given a missing or unexpected keyword.
`corruptState` stands for the dedicated `CorruptStateError` the design
document names; the source defines no such class and no code path produces
it.  `typeMismatch` marks documents whose field values have types the
untyped Python code would carry through unchecked but the typed model cannot
represent; no theorem below depends on such documents. -/
inductive PyExc where
  | jsonDecodeError
  | keyError (k : String)
  | typeError (k : String)
  | corruptState
  | typeMismatch (k : String)
deriving DecidableEq

/-- Serialization of a typed step, as `asdict` produces it inside
`BisectState.save` (state.py:43-48). -/
def BisectStep.toJson (s : BisectStep) : Json :=
  Json.obj [("commit", Json.str s.commit), ("result", Json.str s.result),
    ("exit_code", Json.int s.exit_code), ("timestamp", Json.str s.timestamp),
    ("duration_seconds", Json.num s.duration_seconds)]

/-- Serialization of a loose step dict: `save` passes it through unchanged,
so exactly its present keys appear. -/
def StepDict.toJson (d : StepDict) : Json :=
  Json.obj
    ((match d.commit with
      | some c => [("commit", Json.str c)] | none => []) ++
     (match d.result with
      | some r => [("result", Json.str r)] | none => []) ++
     (match d.exit_code with
      | some e => [("exit_code", Json.int e)] | none => []) ++
     (match d.timestamp with
      | some t => [("timestamp", Json.str t)] | none => []) ++
     (match d.duration_seconds with
      | some q => [("duration_seconds", Json.num q)] | none => []))

/-- Serialization of one history entry (state.py:45-48): typed steps via
`asdict`, dicts as-is. -/
def StepEntry.toJson : StepEntry → Json
  | StepEntry.typed s => s.toJson
  | StepEntry.loose d => d.toJson

/-- Python `None`-or-string serialized to JSON. -/
def optStrJson : Option String → Json
  | none => Json.null
  | some s => Json.str s

/-- `BisectState.save` (state.py:37-50): the whole state as one JSON
document, with steps re-serialized per shape.  The document is the model of
the file contents written at `path`. -/
def BisectState.save (st : BisectState) : Json :=
  Json.obj [("repo_path", Json.str st.repo_path),
    ("branch", Json.str st.branch),
    ("good_commit", Json.str st.good_commit),
    ("bad_commit", Json.str st.bad_commit),
    ("test_script", Json.str st.test_script),
    ("worktree_path", optStrJson st.worktree_path),
    ("started_at", Json.str st.started_at),
    ("steps", Json.arr (st.steps.map StepEntry.toJson)),
    ("current_commit", optStrJson st.current_commit),
    ("found_bad_commit", optStrJson st.found_bad_commit),
    ("status", Json.str st.status)]

/-- Required top-level field access `data[k]` expecting a string: a missing
key raises `KeyError` (state.py:65-71). -/
def reqStr (kvs : List (String × Json)) (k : String) : Except PyExc String :=
  match jlookup kvs k with
  | none => Except.error (PyExc.keyError k)
  | some (Json.str s) => Except.ok s
  | some _ => Except.error (PyExc.typeMismatch k)

/-- `data.get(k)` expecting a string or `None`/absent (state.py:72,78,79). -/
def optStrField (kvs : List (String × Json)) (k : String) :
    Except PyExc (Option String) :=
  match jlookup kvs k with
  | none => Except.ok none
  | some Json.null => Except.ok none
  | some (Json.str s) => Except.ok (some s)
  | some _ => Except.error (PyExc.typeMismatch k)

/-- `data.get(k, default)` expecting a string (state.py:73,80). -/
def strFieldD (kvs : List (String × Json)) (k : String) (dflt : String) :
    Except PyExc String :=
  match jlookup kvs k with
  | none => Except.ok dflt
  | some (Json.str s) => Except.ok s
  | some _ => Except.error (PyExc.typeMismatch k)

/-- The five dataclass field names of `BisectStep`. -/
def stepKeys : List String :=
  ["commit", "result", "exit_code", "timestamp", "duration_seconds"]

/-- Step field access inside `BisectStep(**s)`: a missing keyword raises
`TypeError`. -/
def stepStr (kvs : List (String × Json)) (k : String) : Except PyExc String :=
  match jlookup kvs k with
  | none => Except.error (PyExc.typeError k)
  | some (Json.str s) => Except.ok s
  | some _ => Except.error (PyExc.typeMismatch k)

/-- Step field access expecting an int. -/
def stepInt (kvs : List (String × Json)) (k : String) : Except PyExc Int :=
  match jlookup kvs k with
  | none => Except.error (PyExc.typeError k)
  | some (Json.int n) => Except.ok n
  | some _ => Except.error (PyExc.typeMismatch k)

/-- Step field access expecting a number (json floats or ints both behave as
numbers downstream, and Python validates neither). -/
def stepNum (kvs : List (String × Json)) (k : String) : Except PyExc ℚ :=
  match jlookup kvs k with
  | none => Except.error (PyExc.typeError k)
  | some (Json.num q) => Except.ok q
  | some (Json.int n) => Except.ok (n : ℚ)
  | some _ => Except.error (PyExc.typeMismatch k)

/-- `BisectStep(**s)` applied to a JSON-decoded dict (state.py:74-77): fails
with `TypeError` when a keyword is unexpected or missing.  Python checks the
keyword set, not the value types. -/
def stepFromJson (kvs : List (String × Json)) : Except PyExc BisectStep :=
  if kvs.all (fun p => stepKeys.contains p.1) then do
    let c ← stepStr kvs "commit"
    let r ← stepStr kvs "result"
    let e ← stepInt kvs "exit_code"
    let t ← stepStr kvs "timestamp"
    let d ← stepNum kvs "duration_seconds"
    Except.ok ⟨c, r, e, t, d⟩
  else Except.error (PyExc.typeError "unexpected keyword")

/-- One element of the saved steps array (state.py:74-77): a JSON object is
normalized via `BisectStep(**s)`.  A non-object element would be kept as-is
by the Python code, which the typed model cannot hold. -/
def stepEntryFromJson : Json → Except PyExc StepEntry
  | Json.obj kvs => (stepFromJson kvs).map StepEntry.typed
  | _ => Except.error (PyExc.typeMismatch "steps")

/-- `data.get('steps', [])` with per-element normalization. -/
def stepsFromJson (kvs : List (String × Json)) :
    Except PyExc (List StepEntry) :=
  match jlookup kvs "steps" with
  | none => Except.ok []
  | some (Json.arr xs) => xs.mapM stepEntryFromJson
  | some _ => Except.error (PyExc.typeMismatch "steps")

/-- `BisectState.load` (state.py:52-81).  The `none` input models a file the
json module cannot parse (`json.JSONDecodeError`); field reads follow the
source order. -/
def BisectState.load (doc : Option Json) : Except PyExc BisectState :=
  match doc with
  | none => Except.error PyExc.jsonDecodeError
  | some (Json.obj kvs) => do
    let rp ← reqStr kvs "repo_path"
    let br ← reqStr kvs "branch"
    let gc ← reqStr kvs "good_commit"
    let bc ← reqStr kvs "bad_commit"
    let ts ← reqStr kvs "test_script"
    let wt ← optStrField kvs "worktree_path"
    let sa ← strFieldD kvs "started_at" ""
    let steps ← stepsFromJson kvs
    let cc ← optStrField kvs "current_commit"
    let fbc ← optStrField kvs "found_bad_commit"
    let status ← strFieldD kvs "status" "in_progress"
    Except.ok ⟨rp, br, gc, bc, ts, wt, sa, steps, cc, fbc, status⟩
  | some _ => Except.error (PyExc.typeMismatch "document")

/-- A loose step dict holding all five keys, as every dict the program
itself builds does. -/
def StepDict.complete (d : StepDict) : Prop :=
  d.commit.isSome ∧ d.result.isSome ∧ d.exit_code.isSome ∧
    d.timestamp.isSome ∧ d.duration_seconds.isSome

/-- The typed step a complete loose dict denotes. -/
def StepDict.toStepD (d : StepDict) : BisectStep :=
  ⟨d.commit.getD "", d.result.getD "", d.exit_code.getD 0,
    d.timestamp.getD "", d.duration_seconds.getD 0⟩

/-- Normalization of one entry into the typed shape, as loading performs. -/
def StepEntry.normalize : StepEntry → StepEntry
  | StepEntry.typed s => StepEntry.typed s
  | StepEntry.loose d => StepEntry.typed d.toStepD

/-- State with its whole history normalized into the typed shape. -/
def BisectState.normalize (st : BisectState) : BisectState :=
  { st with steps := st.steps.map StepEntry.normalize }

/-- Exit-code to result mapping from `BisectRunner.run_test`
(bisect.py:249-260): the if/elif chain over the raw exit code. -/
def exit_code_to_result (exit_code : Int) : String :=
  if exit_code = 0 then "good"
  else if exit_code = 125 then "skip"
  else if 128 ≤ exit_code then "error"
  else "bad"

/-- POSIX reduction of a process exit argument to the observed status byte:
a test script calling `exit -1` is observed by the parent as status 255. -/
def os_exit_status (n : Int) : Int := n % 256

/-- External effects performed by the orchestrator, in order.  Read-only git
queries (`log`, `rev-parse`, `rev-list`, `merge-base`) are `gitQuery`;
every other effect gets its own constructor. -/
inductive Event where
  | printBanner
  | printConfig
  | gitQuery (q : String)
  | chmodScript
  | dryBisectStart
  | bisectReset
  | checkout (c : String)
  | worktreeAdd (ref : String)
  | worktreeRemove
  | writeWrapper
  | removeWrapper
  | bisectStart (bad good : String)
  | bisectGood (c : String)
  | bisectBad (c : String)
  | bisectRunLoop
  | testScriptRun (c : String)
  | saveState (st : BisectState)
deriving DecidableEq

/-- Events that open the real search session: `git bisect start bad good`
(bisect.py:325, git.py:170-172), which from then on drives checkouts of the
working tree.  The estimate probe's `bisect start --no-checkout`
(git.py:186-196) is the dry session of the design: it moves no working tree
and the probe's `finally` block resets it before returning, leaving
repository state untouched, so it does not start a search session. -/
def Event.startsSession : Event → Bool
  | Event.bisectStart _ _ => true
  | _ => false

/-- Events that mutate the repository: its working tree, refs or bisect
state.  Writing the wrapper script or the state file touches files outside
the repository's version-controlled state, and `chmodScript` touches the
user's test script, so they do not count; the dry `--no-checkout` probe
paired with its immediate reset leaves the repository as found. -/
def Event.mutatesRepo : Event → Bool
  | Event.bisectStart _ _ => true
  | Event.checkout _ => true
  | Event.worktreeAdd _ => true
  | Event.worktreeRemove => true
  | Event.bisectGood _ => true
  | Event.bisectBad _ => true
  | Event.bisectRunLoop => true
  | Event.testScriptRun _ => true
  | _ => false

/-- The runner's own fields (bisect.py:59-101). -/
structure Runner where
  repo_path : String
  branch : String
  good_commit : String
  bad_commit : String
  test_script : String
  use_worktree : Bool
  state_file : Option String
  show_ancestry : Bool
  dry_run : Bool
  verbose : Bool
  resuming : Bool
  state : BisectState
deriving DecidableEq

/-- Constructor arguments of `BisectRunner.__init__` with their Python
defaults. -/
structure InitArgs where
  repo_path : String
  good_commit : String
  bad_commit : String
  test_script : String
  branch : Option String := none
  use_worktree : Bool := false
  state_file : Option String := none
  show_ancestry : Bool := false
  dry_run : Bool := false
  verbose : Bool := false
  resume_state : Option BisectState := none

/-- Answers git gives during construction: the current branch and
`rev-parse` resolution, plus the timestamp `datetime.now().isoformat()`
returns.  Paths are taken as already absolute (`os.path.abspath` is the
identity on them). -/
structure GitEnv where
  current_branch : String
  resolve : String → String
  now_iso : String

/-- `BisectRunner.__init__` (bisect.py:30-101): resolves branch and commits
(skipping resolution when resuming), and either adopts the resumed state,
overwriting its status with "in_progress", or creates a fresh state. -/
def BisectRunner.init (env : GitEnv) (a : InitArgs) : Runner :=
  let resuming := a.resume_state.isSome
  let branch := match a.branch with
    | some b => b
    | none => env.current_branch
  let good := if resuming then a.good_commit else env.resolve a.good_commit
  let bad := if resuming then a.bad_commit else env.resolve a.bad_commit
  let state := match a.resume_state with
    | some rs => { rs with status := "in_progress" }
    | none =>
      { repo_path := a.repo_path, branch := branch, good_commit := good,
        bad_commit := bad, test_script := a.test_script,
        started_at := env.now_iso }
  { repo_path := a.repo_path, branch := branch, good_commit := good,
    bad_commit := bad, test_script := a.test_script,
    use_worktree := a.use_worktree, state_file := a.state_file,
    show_ancestry := a.show_ancestry, dry_run := a.dry_run,
    verbose := a.verbose, resuming := resuming, state := state }

/-- The save events `BisectRunner.save_state` (bisect.py:207-211) emits:
one write of the whole state when a state file is configured, none
otherwise. -/
def saveEvs (state_file : Option String) (st : BisectState) : List Event :=
  match state_file with
  | some _ => [Event.saveState st]
  | none => []

/-- Oracle for one `run_test` call: the subprocess outcome (`error` models
`subprocess.run` itself raising, handled at bisect.py:242-244 by
substituting exit code 128), the two `time.time()` readings and the
timestamp. -/
structure TestEnv where
  script_outcome : Except Unit Int
  t_start : ℚ
  t_end : ℚ
  now_iso : String

/-- `BisectRunner.run_test` (bisect.py:213-278): checks out the commit, runs
the test script, maps the exit code, appends the step via `add_step` and
saves state, returning the raw exit code.  Result: exit code, updated
runner, events in order. -/
def BisectRunner.run_test (r : Runner) (env : TestEnv)
    (commit work_dir : String) : Int × Runner × List Event :=
  let exit_code : Int := match env.script_outcome with
    | Except.ok c => c
    | Except.error _ => 128
  let result_str := exit_code_to_result exit_code
  let step : BisectStep :=
    ⟨commit, result_str, exit_code, env.now_iso, env.t_end - env.t_start⟩
  let st1 := r.state.add_step step
  (exit_code, { r with state := st1 },
    [Event.gitQuery ("log -1 " ++ commit), Event.checkout commit,
      Event.testScriptRun commit] ++ saveEvs r.state_file st1)

/-- Every mutation the orchestrator performs on its `BisectState` over a
run: appending a judged step (bisect.py:275), a status transition
(bisect.py:92,477,484,491,500), recording the verdict (bisect.py:476) and
recording the worktree path (bisect.py:195). -/
inductive StateOp where
  | addStep (s : BisectStep)
  | setStatus (x : String)
  | setFound (c : String)
  | setWorktree (p : String)

/-- Effect of each state mutation. -/
def applyOp : StateOp → BisectState → BisectState
  | StateOp.addStep s, st => st.add_step s
  | StateOp.setStatus x, st => { st with status := x }
  | StateOp.setFound c, st => { st with found_bad_commit := some c }
  | StateOp.setWorktree p, st => { st with worktree_path := some p }

/-- A replay assertion issued against the search session. -/
inductive Assertion where
  | good (c : String)
  | bad (c : String)
deriving DecidableEq

/-- Extraction of `(commit, result)` from one entry as
`replay_bisect_trace` does (bisect.py:292-298): attribute access for a
`BisectStep`, subscripting for a dict — the latter raising `KeyError` when
the key is absent. -/
def stepCommitResult : StepEntry → Except PyExc (String × String)
  | StepEntry.typed s => Except.ok (s.commit, s.result)
  | StepEntry.loose d =>
    match d.commit with
    | none => Except.error (PyExc.keyError "commit")
    | some c =>
      match d.result with
      | none => Except.error (PyExc.keyError "result")
      | some r => Except.ok (c, r)

/-- `BisectRunner.replay_bisect_trace` (bisect.py:280-309): the assertions
issued in history order — "good" steps asserted good, "bad" steps asserted
bad, everything else asserted not at all — together with the exception, if
any, that aborts the loop (assertions already issued are kept). -/
def replay_bisect_trace : List StepEntry → List Assertion × Option PyExc
  | [] => ([], none)
  | e :: rest =>
    match stepCommitResult e with
    | Except.error exc => ([], some exc)
    | Except.ok (c, r) =>
      let (tail, exc) := replay_bisect_trace rest
      if r = "good" then (Assertion.good c :: tail, exc)
      else if r = "bad" then (Assertion.bad c :: tail, exc)
      else (tail, exc)

/-- The git commands a list of assertions turns into. -/
def assertionEvents (asserts : List Assertion) : List Event :=
  asserts.map (fun a =>
    match a with
    | Assertion.good c => Event.bisectGood c
    | Assertion.bad c => Event.bisectBad c)

/-- Lowercase-hex test, the character class of the verdict pattern. -/
def isHexChar (c : Char) : Bool :=
  (decide ('a' ≤ c) && decide (c ≤ 'f')) ||
    (decide ('0' ≤ c) && decide (c ≤ '9'))

/-- Leftmost run of exactly 40 hex characters, as `re.search` finds for the
40-hex pattern: try each start position left to right. -/
def findHex40Aux : List Char → Option (List Char)
  | [] => none
  | c :: rest =>
    let cand := (c :: rest).take 40
    if cand.length = 40 && cand.all isHexChar then some cand
    else findHex40Aux rest

/-- String form of the leftmost 40-hex run, when present. -/
def findHex40 (s : String) : Option String :=
  (findHex40Aux s.toList).map (fun l => String.mk l)

/-- List prefix test used for substring containment. -/
def startsWithL : List Char → List Char → Bool
  | [], _ => true
  | _ :: _, [] => false
  | a :: as, b :: bs => a = b && startsWithL as bs

/-- Substring containment, Python's `needle in line`. -/
def containsSub (needle : List Char) : List Char → Bool
  | [] => startsWithL needle []
  | c :: rest => startsWithL needle (c :: rest) || containsSub needle rest

/-- Whether a transcript line carries the recognized marker phrase. -/
def lineHasMarker (line : String) : Bool :=
  containsSub "is the first bad commit".toList line.toList

/-- The verdict scan of `BisectRunner.run_bisect` (bisect.py:348-355): the
first line that both contains the marker phrase and a 40-hex identifier
yields that identifier; a marker line without an identifier does not stop
the scan. -/
def scanVerdict : List String → Option String
  | [] => none
  | line :: rest =>
    if lineHasMarker line then
      match findHex40 line with
      | some h => some h
      | none => scanVerdict rest
    else scanVerdict rest

/-- Verdict determination of `run_bisect` (bisect.py:348-364): the scan
result if any, otherwise the `rev-parse HEAD` fallback
(`get_current_bisect_commit`), whose own failure — modelled by `none` — is
swallowed. -/
def run_bisect_verdict (log_lines : List String) (head : Option String) :
    Option String :=
  match scanVerdict log_lines with
  | some c => some c
  | none => head

/-- Python truthiness of the optional verdict string: `None` and the empty
string are falsy. -/
def pyTruthy : Option String → Bool
  | none => false
  | some s => s != ""

/-- Oracle answers for one `run` call: the filesystem checks of `validate`,
the git answers for ancestry and range count, the worktree location
`tempfile.mkdtemp` yields, the `git bisect log` transcript lines and the
`rev-parse HEAD` fallback answer. -/
structure RunEnv where
  repo_isdir : Bool := true
  gitdir_isdir : Bool := true
  script_isfile : Bool := true
  script_executable : Bool := true
  is_ancestor : Bool := true
  commit_count : Nat := 1
  wt_path : String := "/tmp/git-bisect-x/worktree"
  log_lines : List String := []
  head_fallback : Option String := none
deriving DecidableEq

/-- `BisectRunner.validate` (bisect.py:141-181): the checks in source
order — repository directory, `.git` directory, test script file, the
executable bit (auto-chmod with a warning when unset), ancestry, and the
commit count — with the effects performed along the way. -/
def BisectRunner.validate (env : RunEnv) : Bool × List Event :=
  if env.repo_isdir = false then (false, [])
  else if env.gitdir_isdir = false then (false, [])
  else if env.script_isfile = false then (false, [])
  else
    let evs1 : List Event :=
      if env.script_executable then [] else [Event.chmodScript]
    let evs2 := evs1 ++ [Event.gitQuery "merge-base --is-ancestor"]
    if env.is_ancestor = false then (false, evs2)
    else
      let evs3 := evs2 ++ [Event.gitQuery "rev-list --count"]
      if env.commit_count = 0 then (false, evs3) else (true, evs3)

/-- `BisectRunner.run` (bisect.py:450-510) on the paths the process itself
controls (no interrupt injected): banner, configuration printout with its
two commit lookups, the dry estimate probe (git.py:186-196: `bisect start
--no-checkout` then a guaranteed `bisect reset`), validation — failure
returning exit code 2 — the dry-run early exit, then worktree setup,
`run_bisect` (wrapper write, session start, replay when resuming, the
search loop, transcript retrieval, verdict scan with HEAD fallback, wrapper
removal and session reset in a `finally` block), the verdict/no-verdict
reporting with status transition and save, and the worktree cleanup in the
outermost `finally`.  A replay `KeyError` propagates to the generic
exception handler (bisect.py:498-505): status "aborted", save, exit 1.
Result: exit code, final state, events in order. -/
def BisectRunner.run (r : Runner) (env : RunEnv) :
    Nat × BisectState × List Event :=
  let pre : List Event :=
    [Event.printBanner, Event.gitQuery "log -1 good", Event.gitQuery "log -1 bad",
      Event.printConfig, Event.dryBisectStart, Event.bisectReset]
  let v := BisectRunner.validate env
  if v.1 = false then (2, r.state, pre ++ v.2)
  else if r.dry_run then (0, r.state, pre ++ v.2)
  else
    let st0 := if r.use_worktree then
        { r.state with worktree_path := some env.wt_path }
      else r.state
    let wtEvs : List Event :=
      if r.use_worktree then [Event.worktreeAdd r.bad_commit] else []
    let cleanup : List Event :=
      if r.use_worktree then [Event.worktreeRemove] else []
    let rp := replay_bisect_trace r.state.steps
    let replayEvs : List Event :=
      if r.resuming then assertionEvents rp.1 else []
    if r.resuming && rp.2.isSome then
      let st1 := { st0 with status := "aborted" }
      (1, st1,
        pre ++ v.2 ++ wtEvs ++
          [Event.writeWrapper, Event.bisectStart r.bad_commit r.good_commit] ++
          replayEvs ++ [Event.removeWrapper, Event.bisectReset] ++
          saveEvs r.state_file st1 ++ cleanup)
    else
      let scan := scanVerdict env.log_lines
      let fbEvs : List Event :=
        if scan = none then [Event.gitQuery "rev-parse HEAD"] else []
      let verdict := run_bisect_verdict env.log_lines env.head_fallback
      let bisectEvs : List Event :=
        [Event.writeWrapper, Event.bisectStart r.bad_commit r.good_commit] ++
          replayEvs ++ [Event.bisectRunLoop, Event.gitQuery "bisect log"] ++
          fbEvs ++ [Event.removeWrapper, Event.bisectReset]
      if pyTruthy verdict then
        let st1 :=
          { st0 with found_bad_commit := verdict, status := "completed" }
        let resultEvs : List Event :=
          [Event.gitQuery "log -1 found"] ++
            (if r.show_ancestry then [Event.gitQuery "log ancestry"] else [])
        (0, st1,
          pre ++ v.2 ++ wtEvs ++ bisectEvs ++ saveEvs r.state_file st1 ++
            resultEvs ++ cleanup)
      else
        let st1 := { st0 with status := "aborted" }
        (1, st1,
          pre ++ v.2 ++ wtEvs ++ bisectEvs ++ saveEvs r.state_file st1 ++
            cleanup)

/-- Abstract commit graph: identifiers 0 to n-1 with the answer git's
`merge-base --is-ancestor a b` gives for each pair (`anc a b` is true when
`a` is reachable from `b`, including `a = b`). -/
structure CommitDag where
  n : Nat
  anc : Nat → Nat → Bool

/-- `Git.count_commits_between` (git.py:107-110) over the graph:
`rev-list --count good..bad`, the number of commits reachable from `bad`
but not from `good` — the exclusive-good/inclusive-bad range. -/
def count_commits_between (g : CommitDag) (good bad : Nat) : Nat :=
  ((List.range g.n).filter
    (fun c => g.anc c bad && !(g.anc c good))).length

/-- A linear history on n commits, commit i the parent of commit i+1. -/
def linearDag (n : Nat) : CommitDag :=
  ⟨n, fun a b => decide (a ≤ b) && decide (b < n)⟩

/-- A step entry the running program can hold: typed, or a loose dict
carrying all five keys (the only dicts the program itself ever builds). -/
def StepEntry.wf : StepEntry → Prop
  | StepEntry.typed _ => True
  | StepEntry.loose d => d.complete

/-- A concrete session state over a given history, for instantiating the
theorems on explicit inputs. -/
def mkState (steps : List StepEntry) : BisectState :=
  { repo_path := "/repo", branch := "main", good_commit := "g",
    bad_commit := "b", test_script := "./t.sh", steps := steps }

/-- A concrete runner over a given state, mirroring the CLI defaults. -/
def mkRunner (state_file : Option String) (st : BisectState) : Runner :=
  { repo_path := "/repo", branch := "main", good_commit := "g",
    bad_commit := "b", test_script := "./t.sh", use_worktree := false,
    state_file := state_file, show_ancestry := false, dry_run := false,
    verbose := false, resuming := false, state := st }

/-- A forty-digit commit identifier. -/
def hex40c : String := "0123456789abcdef0123456789abcdef01234567"

/-- A transcript without the marker phrase, with the HEAD fallback
available. -/
def envC2 : RunEnv :=
  { log_lines := ["running bisect"], head_fallback := some hex40c }

/-- A complete loosely-typed step record. -/
def looseStep0 : StepDict :=
  ⟨some "c1", some "good", some 0, some "t", some 10⟩

instance {α β : Type} [DecidableEq α] [DecidableEq β] :
    DecidableEq (Except α β) := fun a b =>
  match a, b with
  | Except.ok x, Except.ok y =>
    if h : x = y then Decidable.isTrue (by rw [h])
    else Decidable.isFalse (by intro hh; cases hh; exact h rfl)
  | Except.error x, Except.error y =>
    if h : x = y then Decidable.isTrue (by rw [h])
    else Decidable.isFalse (by intro hh; cases hh; exact h rfl)
  | Except.ok _, Except.error _ => Decidable.isFalse (by intro hh; cases hh)
  | Except.error _, Except.ok _ => Decidable.isFalse (by intro hh; cases hh)

theorem except_bind_ok {α β : Type} (a : α) (f : α → Except PyExc β) :
    (Except.ok a : Except PyExc α).bind f = f a := rfl

theorem except_bind_error {α β : Type} (e : PyExc)
    (f : α → Except PyExc β) :
    (Except.error e : Except PyExc α).bind f = Except.error e := rfl

theorem stepEntryFromJson_typed (s : BisectStep) :
    stepEntryFromJson (StepEntry.typed s).toJson =
      Except.ok (StepEntry.typed s) := rfl

theorem stepEntryFromJson_loose (c r : String) (e : Int) (t : String)
    (q : ℚ) :
    stepEntryFromJson
        (StepEntry.loose ⟨some c, some r, some e, some t, some q⟩).toJson =
      Except.ok (StepEntry.typed ⟨c, r, e, t, q⟩) := rfl

theorem mapM_steps_wf (l : List StepEntry) (h : ∀ e ∈ l, e.wf) :
    (l.map StepEntry.toJson).mapM stepEntryFromJson =
      Except.ok (l.map StepEntry.normalize) := by
  induction l with
  | nil => rfl
  | cons e rest ih =>
    have he : e.wf := h e (List.mem_cons_self e rest)
    have hrest : ∀ x ∈ rest, x.wf := fun x hx => h x (List.mem_cons_of_mem e hx)
    simp only [List.map_cons, List.mapM_cons]
    cases e with
    | typed s =>
      rw [stepEntryFromJson_typed, ih hrest]
      rfl
    | loose d =>
      obtain ⟨dc, dr, de, dt, dq⟩ := d
      obtain ⟨h1, h2, h3, h4, h5⟩ := he
      rw [Option.isSome_iff_exists] at h1 h2 h3 h4 h5
      obtain ⟨c, rfl⟩ := h1
      obtain ⟨r, rfl⟩ := h2
      obtain ⟨ec, rfl⟩ := h3
      obtain ⟨t, rfl⟩ := h4
      obtain ⟨q, rfl⟩ := h5
      rw [stepEntryFromJson_loose, ih hrest]
      rfl

theorem load_save_wf (st : BisectState) (h : ∀ e ∈ st.steps, e.wf) :
    BisectState.load (some st.save) = Except.ok st.normalize := by
  obtain ⟨rp, br, gc, bc, ts, wt, sa, steps, cc, fbc, status⟩ := st
  have hsteps := mapM_steps_wf steps h
  have hsteps2 : List.mapM.loop stepEntryFromJson
      (List.map StepEntry.toJson steps) [] =
      Except.ok (List.map StepEntry.normalize steps) := hsteps
  cases wt <;> cases cc <;> cases fbc <;>
    simp [BisectState.load, BisectState.save, BisectState.normalize,
      reqStr, optStrField, strFieldD, stepsFromJson, jlookup, optStrJson,
      hsteps, hsteps2, Bind.bind, Except.bind, pure, Except.pure]

theorem normalize_map_typed (l : List BisectStep) :
    (l.map StepEntry.typed).map StepEntry.normalize = l.map StepEntry.typed := by
  induction l with
  | nil => rfl
  | cons s rest ih => simp [StepEntry.normalize, ih]

theorem validate_fst (env : RunEnv) :
    (BisectRunner.validate env).1 =
      (env.repo_isdir && env.gitdir_isdir && env.script_isfile &&
        env.is_ancestor && decide (env.commit_count ≠ 0)) := by
  obtain ⟨ri, gi, si, se, ia, cc, wp, ll, hf⟩ := env
  cases ri <;> cases gi <;> cases si <;> cases se <;> cases ia <;>
    rcases Nat.eq_zero_or_pos cc with hc | hc <;>
      simp_all [BisectRunner.validate, Nat.pos_iff_ne_zero]

theorem count_ne_zero_iff (g : CommitDag) (good bad : Nat) :
    count_commits_between g good bad ≠ 0 ↔
      ∃ c, c < g.n ∧ g.anc c bad = true ∧ g.anc c good = false := by
  unfold count_commits_between
  rw [Ne, List.length_eq_zero]
  constructor
  · intro hne
    obtain ⟨c, hc⟩ := List.exists_mem_of_ne_nil _ hne
    rw [List.mem_filter, List.mem_range] at hc
    refine ⟨c, hc.1, ?_, ?_⟩
    · exact (Bool.and_eq_true _ _ |>.mp hc.2).1
    · have := (Bool.and_eq_true _ _ |>.mp hc.2).2
      simpa using this
  · rintro ⟨c, hlt, hb, hg⟩ hnil
    have : c ∈ (List.range g.n).filter
        (fun c => g.anc c bad && !(g.anc c good)) := by
      rw [List.mem_filter, List.mem_range]
      exact ⟨hlt, by simp [hb, hg]⟩
    rw [hnil] at this
    exact absurd this (List.not_mem_nil c)

theorem validate_events_safe (env : RunEnv) :
    ∀ e ∈ (BisectRunner.validate env).2,
      e.startsSession = false ∧ e.mutatesRepo = false := by
  intro e he
  unfold BisectRunner.validate at he
  split_ifs at he <;> simp at he <;>
    rcases he with rfl | rfl | rfl <;>
      simp [Event.startsSession, Event.mutatesRepo]

theorem rne_intCast (n : ℤ) : roundNearestEven (n : ℚ) = n := by
  unfold roundNearestEven
  rw [Int.floor_intCast]
  norm_num

theorem rne_add_of_lt (n : ℤ) (f : ℚ) (h0 : 0 ≤ f) (h : f < 1/2) :
    roundNearestEven ((n : ℚ) + f) = n := by
  have hfloor : ⌊(n : ℚ) + f⌋ = n :=
    Int.floor_eq_iff.mpr ⟨by linarith, by linarith⟩
  unfold roundNearestEven
  rw [hfloor]
  have h2 : (n : ℚ) + f - n = f := by ring
  rw [h2, if_pos h]

theorem rne_add_of_gt (n : ℤ) (f : ℚ) (h : 1/2 < f) (h1 : f < 1) :
    roundNearestEven ((n : ℚ) + f) = n + 1 := by
  have hfloor : ⌊(n : ℚ) + f⌋ = n :=
    Int.floor_eq_iff.mpr ⟨by linarith, by linarith⟩
  unfold roundNearestEven
  rw [hfloor]
  have h2 : (n : ℚ) + f - n = f := by ring
  rw [h2, if_neg (by linarith), if_pos h]

theorem rne_add_half_odd (n : ℤ) (hodd : ¬ 2 ∣ n) :
    roundNearestEven ((n : ℚ) + 1/2) = n + 1 := by
  have hfloor : ⌊(n : ℚ) + 1/2⌋ = n :=
    Int.floor_eq_iff.mpr ⟨by linarith, by linarith⟩
  unfold roundNearestEven
  rw [hfloor]
  have h2 : (n : ℚ) + 1/2 - n = 1/2 := by ring
  rw [h2, if_neg (by norm_num), if_neg (by norm_num), if_neg hodd]

theorem int_log2_eq (q : ℚ) (e : ℤ) (hpos : 0 < q)
    (h1 : (2:ℚ) ^ e ≤ q) (h2 : q < (2:ℚ) ^ (e + 1)) : Int.log 2 q = e := by
  have hlow : ((2:ℕ) : ℚ) ^ Int.log 2 q ≤ q :=
    Int.zpow_log_le_self (by norm_num) hpos
  have hup : q < ((2:ℕ) : ℚ) ^ (Int.log 2 q + 1) :=
    Int.lt_zpow_succ_log_self (by norm_num) q
  have hc : ((2:ℕ) : ℚ) = (2:ℚ) := by norm_num
  rw [hc] at hlow hup
  have hlt1 : e < Int.log 2 q + 1 :=
    (zpow_lt_zpow_iff_right₀ (by norm_num : (1:ℚ) < 2)).mp
      (lt_of_le_of_lt h1 hup)
  have hlt2 : Int.log 2 q < e + 1 :=
    (zpow_lt_zpow_iff_right₀ (by norm_num : (1:ℚ) < 2)).mp
      (lt_of_le_of_lt hlow h2)
  omega

theorem fl_eq_of (q : ℚ) (e n : ℤ) (hpos : 0 < q)
    (h1 : (2:ℚ) ^ e ≤ q) (h2 : q < (2:ℚ) ^ (e + 1))
    (hn : roundNearestEven (q * 2 ^ ((52 : ℤ) - e)) = n) :
    fl q = (n : ℚ) * 2 ^ (e - 52) := by
  have hlog : Int.log 2 q = e := int_log2_eq q e hpos h1 h2
  unfold fl
  rw [if_neg hpos.ne', if_neg (not_lt.mpr hpos.le)]
  unfold flPos
  rw [hlog, hn]

theorem fl_tenth : fl (1/10) = 3602879701896397/2^55 := by
  rw [fl_eq_of (1/10) (-4) 7205759403792794 (by norm_num) (by norm_num)
    (by norm_num)
    (by
      rw [(by norm_num : (1/10 : ℚ) * 2 ^ ((52:ℤ) - (-4)) =
          ((7205759403792793 : ℤ) : ℚ) + 3/5),
        rne_add_of_gt 7205759403792793 (3/5) (by norm_num) (by norm_num)]
      norm_num)]
  norm_num

theorem fl_two_tenths : fl (2/10) = 3602879701896397/2^54 := by
  rw [fl_eq_of (2/10) (-3) 7205759403792794 (by norm_num) (by norm_num)
    (by norm_num)
    (by
      rw [(by norm_num : (2/10 : ℚ) * 2 ^ ((52:ℤ) - (-3)) =
          ((7205759403792793 : ℤ) : ℚ) + 3/5),
        rne_add_of_gt 7205759403792793 (3/5) (by norm_num) (by norm_num)]
      norm_num)]
  norm_num

theorem fl_three_tenths : fl (3/10) = 5404319552844595/2^54 := by
  rw [fl_eq_of (3/10) (-2) 5404319552844595 (by norm_num) (by norm_num)
    (by norm_num)
    (by
      rw [(by norm_num : (3/10 : ℚ) * 2 ^ ((52:ℤ) - (-2)) =
          ((5404319552844595 : ℤ) : ℚ) + 1/5),
        rne_add_of_lt 5404319552844595 (1/5) (by norm_num) (by norm_num)])]
  norm_num

theorem addF_a1 : addF 0 (3602879701896397/2^55 : ℚ) =
    3602879701896397/2^55 := by
  unfold addF
  rw [zero_add,
    fl_eq_of (3602879701896397/2^55) (-4) 7205759403792794 (by norm_num)
      (by norm_num) (by norm_num)
      (by
        rw [(by norm_num : (3602879701896397/2^55 : ℚ) *
            2 ^ ((52:ℤ) - (-4)) = ((7205759403792794 : ℤ) : ℚ)),
          rne_intCast])]
  norm_num

theorem addF_a2 : addF (3602879701896397/2^55 : ℚ)
    (3602879701896397/2^54) = 5404319552844596/2^54 := by
  unfold addF
  rw [(by norm_num : (3602879701896397/2^55 : ℚ) + 3602879701896397/2^54 =
      10808639105689191/2^55),
    fl_eq_of (10808639105689191/2^55) (-2) 5404319552844596 (by norm_num)
      (by norm_num) (by norm_num)
      (by
        rw [(by norm_num : (10808639105689191/2^55 : ℚ) *
            2 ^ ((52:ℤ) - (-2)) = ((5404319552844595 : ℤ) : ℚ) + 1/2),
          rne_add_half_odd 5404319552844595 (by omega)]
        norm_num)]
  norm_num

theorem addF_a3 : addF (5404319552844596/2^54 : ℚ)
    (5404319552844595/2^54) = 5404319552844596/2^53 := by
  unfold addF
  rw [(by norm_num : (5404319552844596/2^54 : ℚ) + 5404319552844595/2^54 =
      10808639105689191/2^54),
    fl_eq_of (10808639105689191/2^54) (-1) 5404319552844596 (by norm_num)
      (by norm_num) (by norm_num)
      (by
        rw [(by norm_num : (10808639105689191/2^54 : ℚ) *
            2 ^ ((52:ℤ) - (-1)) = ((5404319552844595 : ℤ) : ℚ) + 1/2),
          rne_add_half_odd 5404319552844595 (by omega)]
        norm_num)]
  norm_num

theorem addF_b1 : addF 0 (5404319552844595/2^54 : ℚ) =
    5404319552844595/2^54 := by
  unfold addF
  rw [zero_add,
    fl_eq_of (5404319552844595/2^54) (-2) 5404319552844595 (by norm_num)
      (by norm_num) (by norm_num)
      (by
        rw [(by norm_num : (5404319552844595/2^54 : ℚ) *
            2 ^ ((52:ℤ) - (-2)) = ((5404319552844595 : ℤ) : ℚ)),
          rne_intCast])]
  norm_num

theorem addF_b2 : addF (5404319552844595/2^54 : ℚ)
    (3602879701896397/2^54) = 1/2 := by
  unfold addF
  rw [(by norm_num : (5404319552844595/2^54 : ℚ) + 3602879701896397/2^54 =
      1/2),
    fl_eq_of (1/2) (-1) 4503599627370496 (by norm_num) (by norm_num)
      (by norm_num)
      (by
        rw [(by norm_num : (1/2 : ℚ) * 2 ^ ((52:ℤ) - (-1)) =
            ((4503599627370496 : ℤ) : ℚ)),
          rne_intCast])]
  norm_num

theorem addF_b3 : addF (1/2 : ℚ) (3602879701896397/2^55) =
    5404319552844595/2^53 := by
  unfold addF
  rw [(by norm_num : (1/2 : ℚ) + 3602879701896397/2^55 =
      21617278211378381/2^55),
    fl_eq_of (21617278211378381/2^55) (-1) 5404319552844595 (by norm_num)
      (by norm_num) (by norm_num)
      (by
        rw [(by norm_num : (21617278211378381/2^55 : ℚ) *
            2 ^ ((52:ℤ) - (-1)) = ((5404319552844595 : ℤ) : ℚ) + 1/4),
          rne_add_of_lt 5404319552844595 (1/4) (by norm_num) (by norm_num)])]
  norm_num

theorem addF_t1 : addF 0 (10 : ℚ) = 10 := by
  unfold addF
  rw [zero_add,
    fl_eq_of 10 3 5629499534213120 (by norm_num) (by norm_num) (by norm_num)
      (by
        rw [(by norm_num : (10 : ℚ) * 2 ^ ((52:ℤ) - 3) =
            ((5629499534213120 : ℤ) : ℚ)),
          rne_intCast])]
  norm_num

theorem addF_t2 : addF (10 : ℚ) 20 = 30 := by
  unfold addF
  rw [(by norm_num : (10 : ℚ) + 20 = 30),
    fl_eq_of 30 4 8444249301319680 (by norm_num) (by norm_num) (by norm_num)
      (by
        rw [(by norm_num : (30 : ℚ) * 2 ^ ((52:ℤ) - 4) =
            ((8444249301319680 : ℤ) : ℚ)),
          rne_intCast])]
  norm_num

theorem addF_t3 : addF (30 : ℚ) ((31:ℚ)/2) = (91:ℚ)/2 := by
  unfold addF
  rw [(by norm_num : (30 : ℚ) + (31:ℚ)/2 = (91:ℚ)/2),
    fl_eq_of ((91:ℚ)/2) 5 6403555720167424 (by norm_num) (by norm_num)
      (by norm_num)
      (by
        rw [(by norm_num : ((91:ℚ)/2) * 2 ^ ((52:ℤ) - 5) =
            ((6403555720167424 : ℤ) : ℚ)),
          rne_intCast])]
  norm_num

/-- C1: the exit-code-to-result mapping of `run_test` is total into the four
result tags and order-sensitive: 0 maps to good, 125 to skip, every code at
least 128 to error, every other nonzero code to bad; in particular 0, 125,
128, 1, 255 and -1 (observed as status 255) map to good, skip, error, bad,
error, error. -/
theorem C1_exit_code_mapping :
    exit_code_to_result 0 = "good" ∧
    exit_code_to_result 125 = "skip" ∧
    exit_code_to_result 128 = "error" ∧
    exit_code_to_result 1 = "bad" ∧
    exit_code_to_result 255 = "error" ∧
    os_exit_status (-1) = 255 ∧
    exit_code_to_result (os_exit_status (-1)) = "error" ∧
    (∀ c : Int, 128 ≤ c → exit_code_to_result c = "error") ∧
    (∀ c : Int, c ≠ 0 → c ≠ 125 → c < 128 → exit_code_to_result c = "bad") ∧
    (∀ c : Int, exit_code_to_result c = "good" ∨
      exit_code_to_result c = "skip" ∨ exit_code_to_result c = "error" ∨
      exit_code_to_result c = "bad") := by
  refine ⟨rfl, rfl, rfl, rfl, rfl, rfl, rfl, ?_, ?_, ?_⟩
  · intro c hc
    simp only [exit_code_to_result]
    split_ifs <;> first | rfl | omega
  · intro c h0 h125 h128
    simp only [exit_code_to_result]
    split_ifs <;> first | rfl | omega
  · intro c
    simp only [exit_code_to_result]
    split_ifs <;> simp

/-- C1 witness: the two guarded cases evaluated at codes 200 and 7. -/
theorem C1_exit_code_mapping_witness :
    exit_code_to_result 200 = "error" ∧ exit_code_to_result 7 = "bad" :=
  ⟨C1_exit_code_mapping.2.2.2.2.2.2.2.1 200 (by decide),
    C1_exit_code_mapping.2.2.2.2.2.2.2.2.1 7 (by decide) (by decide)
      (by decide)⟩

/-- C10: constructing a runner from a resumed state overwrites the state's
status with "in_progress" — whatever status the resumed state carried — and
changes no other field of that state. -/
theorem C10_resume_overwrites_status (env : GitEnv) (a : InitArgs)
    (rs : BisectState) (h : a.resume_state = some rs) :
    (BisectRunner.init env a).state.status = "in_progress" ∧
    (BisectRunner.init env a).state.repo_path = rs.repo_path ∧
    (BisectRunner.init env a).state.branch = rs.branch ∧
    (BisectRunner.init env a).state.good_commit = rs.good_commit ∧
    (BisectRunner.init env a).state.bad_commit = rs.bad_commit ∧
    (BisectRunner.init env a).state.test_script = rs.test_script ∧
    (BisectRunner.init env a).state.worktree_path = rs.worktree_path ∧
    (BisectRunner.init env a).state.started_at = rs.started_at ∧
    (BisectRunner.init env a).state.steps = rs.steps ∧
    (BisectRunner.init env a).state.current_commit = rs.current_commit ∧
    (BisectRunner.init env a).state.found_bad_commit = rs.found_bad_commit := by
  simp [BisectRunner.init, h]

/-- C10 witness: a resumed state whose stored status is "completed". -/
theorem C10_resume_overwrites_status_witness :
    (BisectRunner.init ⟨"main", fun s => s, "2025-01-01T00:00:00"⟩
      { repo_path := "/repo", good_commit := "g", bad_commit := "b",
        test_script := "./t.sh",
        resume_state :=
          some { mkState [] with status := "completed" } }).state.status =
      "in_progress" :=
  (C10_resume_overwrites_status _ _ _ rfl).1

/-- C9 counterexample: the program's total-duration accumulation is IEEE
binary64 addition and therefore not invariant under permutation of the
step list: the float durations nearest 0.1, 0.2 and 0.3 seconds — the
binary64 values those decimal literals denote, as the first three
conjuncts establish — folded in that order total 0.6000000000000001
(5404319552844596 over 2 to the 53) while the reversed order totals 0.6
(5404319552844595 over 2 to the 53), although the two step lists are
permutations of each other. -/
theorem C9_total_duration_counterexample :
    fl (1/10) = 3602879701896397/2^55 ∧
    fl (2/10) = 3602879701896397/2^54 ∧
    fl (3/10) = 5404319552844595/2^54 ∧
    List.Perm
      [StepEntry.typed ⟨"c1", "good", 0, "t", 3602879701896397/2^55⟩,
        StepEntry.typed ⟨"c2", "bad", 1, "t", 3602879701896397/2^54⟩,
        StepEntry.typed ⟨"c3", "good", 0, "t", 5404319552844595/2^54⟩]
      [StepEntry.typed ⟨"c3", "good", 0, "t", 5404319552844595/2^54⟩,
        StepEntry.typed ⟨"c2", "bad", 1, "t", 3602879701896397/2^54⟩,
        StepEntry.typed ⟨"c1", "good", 0, "t", 3602879701896397/2^55⟩] ∧
    (mkState [StepEntry.typed ⟨"c1", "good", 0, "t", 3602879701896397/2^55⟩,
      StepEntry.typed ⟨"c2", "bad", 1, "t", 3602879701896397/2^54⟩,
      StepEntry.typed ⟨"c3", "good", 0, "t",
        5404319552844595/2^54⟩]).get_total_duration =
      5404319552844596/2^53 ∧
    (mkState [StepEntry.typed ⟨"c3", "good", 0, "t", 5404319552844595/2^54⟩,
      StepEntry.typed ⟨"c2", "bad", 1, "t", 3602879701896397/2^54⟩,
      StepEntry.typed ⟨"c1", "good", 0, "t",
        3602879701896397/2^55⟩]).get_total_duration =
      5404319552844595/2^53 ∧
    (mkState [StepEntry.typed ⟨"c1", "good", 0, "t", 3602879701896397/2^55⟩,
      StepEntry.typed ⟨"c2", "bad", 1, "t", 3602879701896397/2^54⟩,
      StepEntry.typed ⟨"c3", "good", 0, "t",
        5404319552844595/2^54⟩]).get_total_duration ≠
    (mkState [StepEntry.typed ⟨"c3", "good", 0, "t", 5404319552844595/2^54⟩,
      StepEntry.typed ⟨"c2", "bad", 1, "t", 3602879701896397/2^54⟩,
      StepEntry.typed ⟨"c1", "good", 0, "t",
        3602879701896397/2^55⟩]).get_total_duration := by
  have hA : (mkState
      [StepEntry.typed ⟨"c1", "good", 0, "t", 3602879701896397/2^55⟩,
        StepEntry.typed ⟨"c2", "bad", 1, "t", 3602879701896397/2^54⟩,
        StepEntry.typed ⟨"c3", "good", 0, "t",
          5404319552844595/2^54⟩]).get_total_duration =
      5404319552844596/2^53 := by
    show addF (addF (addF 0 (3602879701896397/2^55))
      (3602879701896397/2^54)) (5404319552844595/2^54) =
      5404319552844596/2^53
    rw [addF_a1, addF_a2, addF_a3]
  have hB : (mkState
      [StepEntry.typed ⟨"c3", "good", 0, "t", 5404319552844595/2^54⟩,
        StepEntry.typed ⟨"c2", "bad", 1, "t", 3602879701896397/2^54⟩,
        StepEntry.typed ⟨"c1", "good", 0, "t",
          3602879701896397/2^55⟩]).get_total_duration =
      5404319552844595/2^53 := by
    show addF (addF (addF 0 (5404319552844595/2^54))
      (3602879701896397/2^54)) (3602879701896397/2^55) =
      5404319552844595/2^53
    rw [addF_b1, addF_b2, addF_b3]
  refine ⟨fl_tenth, fl_two_tenths, fl_three_tenths,
    (List.reverse_perm _).symm, hA, hB, ?_⟩
  rw [hA, hB]
  norm_num

/-- C9 amended: the total duration is the left-to-right IEEE binary64
accumulation of the step durations — loose records read via get with
default 0 — which is order-dependent in general; on durations 10.0, 20.0
and 15.5 seconds, whose partial sums are all exactly representable, it is
exactly 45.5, for typed steps and loosely-typed records alike. -/
theorem C9_total_duration :
    (∀ st : BisectState,
      st.get_total_duration =
        st.steps.foldl (fun total e => addF total (entryDuration e)) 0) ∧
    (mkState [StepEntry.typed ⟨"c1", "good", 0, "t1", 10⟩,
      StepEntry.typed ⟨"c2", "bad", 1, "t2", 20⟩,
      StepEntry.typed ⟨"c3", "good", 0, "t3", (31 : ℚ)/2⟩]).get_total_duration
        = (91 : ℚ)/2 ∧
    (mkState [StepEntry.loose ⟨some "c1", some "good", some 0, some "t1", some 10⟩,
      StepEntry.loose ⟨some "c2", some "bad", some 1, some "t2", some 20⟩,
      StepEntry.loose ⟨some "c3", some "good", some 0, some "t3",
        some ((31 : ℚ)/2)⟩]).get_total_duration = (91 : ℚ)/2 := by
  refine ⟨?_, ?_, ?_⟩
  · intro st
    have hf : (fun (total : ℚ) (step : StepEntry) =>
        match step with
        | StepEntry.typed s => addF total s.duration_seconds
        | StepEntry.loose d => addF total (d.duration_seconds.getD 0)) =
        fun total e => addF total (entryDuration e) := by
      funext total e
      cases e <;> rfl
    unfold BisectState.get_total_duration
    rw [hf]
  · show addF (addF (addF 0 10) 20) ((31:ℚ)/2) = (91:ℚ)/2
    rw [addF_t1, addF_t2, addF_t3]
  · show addF (addF (addF 0 10) 20) ((31:ℚ)/2) = (91:ℚ)/2
    rw [addF_t1, addF_t2, addF_t3]

/-- C7: replaying a step history asserts exactly the good steps as good and
the bad steps as bad, in recorded order, asserting nothing for skip or
error steps; an empty history asserts nothing; and the histories
bad(c1), good(c2) and good(c2), bad(c1) produce different assertion
sequences. -/
theorem C7_replay_assertions :
    (∀ l : List BisectStep,
      replay_bisect_trace (l.map StepEntry.typed) =
        (l.filterMap (fun s =>
          if s.result = "good" then some (Assertion.good s.commit)
          else if s.result = "bad" then some (Assertion.bad s.commit)
          else none), none)) ∧
    replay_bisect_trace [] = ([], none) ∧
    (∀ (s : BisectStep) (rest : List StepEntry),
      s.result = "skip" ∨ s.result = "error" →
      replay_bisect_trace (StepEntry.typed s :: rest) =
        replay_bisect_trace rest) ∧
    replay_bisect_trace
        [StepEntry.typed ⟨"c1", "bad", 1, "t", 1⟩,
          StepEntry.typed ⟨"c2", "good", 0, "t", 1⟩] ≠
      replay_bisect_trace
        [StepEntry.typed ⟨"c2", "good", 0, "t", 1⟩,
          StepEntry.typed ⟨"c1", "bad", 1, "t", 1⟩] := by
  refine ⟨?_, rfl, ?_, by decide⟩
  · intro l
    induction l with
    | nil => rfl
    | cons s rest ih =>
      simp only [List.map_cons, List.filterMap_cons, replay_bisect_trace,
        stepCommitResult, ih]
      split_ifs <;> simp_all
  · intro s rest h
    cases hrp : replay_bisect_trace rest with
    | mk t e =>
      rcases h with h | h <;>
        simp [replay_bisect_trace, stepCommitResult, h, hrp]

/-- C7 witness: a single skip step asserts nothing. -/
theorem C7_replay_assertions_witness :
    replay_bisect_trace [StepEntry.typed ⟨"c9", "skip", 125, "t", 1⟩] =
      replay_bisect_trace [] :=
  C7_replay_assertions.2.2.1 ⟨"c9", "skip", 125, "t", 1⟩ [] (Or.inl rfl)

/-- C4: given that the repository and test-script path checks pass,
`validate` succeeds exactly when good is a strict ancestor of bad and at
least one commit lies in the range between them — the commits strictly
after good up to and including bad, git's exclusive-good/inclusive-bad
range `good..bad` that `count_commits_between` counts. -/
theorem C4_validate_iff (env : RunEnv) (g : CommitDag) (good bad : Nat)
    (hrepo : env.repo_isdir = true) (hgit : env.gitdir_isdir = true)
    (hscript : env.script_isfile = true)
    (hanc : env.is_ancestor = g.anc good bad)
    (hcount : env.commit_count = count_commits_between g good bad) :
    (BisectRunner.validate env).1 = true ↔
      ((g.anc good bad = true ∧ good ≠ bad) ∧
        ∃ c, c < g.n ∧ g.anc c bad = true ∧ g.anc c good = false) := by
  rw [validate_fst, hrepo, hgit, hscript, hanc, hcount]
  simp only [Bool.true_and, Bool.and_eq_true, decide_eq_true_eq]
  rw [count_ne_zero_iff]
  constructor
  · rintro ⟨hab, c, hlt, hb, hg⟩
    refine ⟨⟨hab, ?_⟩, c, hlt, hb, hg⟩
    rintro rfl
    rw [hb] at hg
    exact absurd hg (by simp)
  · rintro ⟨⟨hab, _⟩, hex⟩
    exact ⟨hab, hex⟩

/-- C4 witness: a two-commit linear history with good the first and bad the
second commit. -/
theorem C4_validate_iff_witness :
    (BisectRunner.validate
        { is_ancestor := (linearDag 2).anc 0 1,
          commit_count := count_commits_between (linearDag 2) 0 1 }).1 =
        true ↔
      (((linearDag 2).anc 0 1 = true ∧ 0 ≠ 1) ∧
        ∃ c, c < (linearDag 2).n ∧ (linearDag 2).anc c 1 = true ∧
          (linearDag 2).anc c 0 = false) :=
  C4_validate_iff _ (linearDag 2) 0 1 rfl rfl rfl rfl rfl

/-- C3: whenever validation fails, the run returns exit code 2, the session
state is untouched, and the trace up to that point contains no
search-session start and no repository mutation — only the banner and
configuration printout, read-only queries, the auto-chmod of the user's
test script, and the dry no-checkout estimate probe closed by its reset. -/
theorem C3_validation_failure_exits_2 (r : Runner) (env : RunEnv)
    (h : (BisectRunner.validate env).1 = false) :
    (BisectRunner.run r env).1 = 2 ∧
    (BisectRunner.run r env).2.1 = r.state ∧
    ∀ e ∈ (BisectRunner.run r env).2.2,
      e.startsSession = false ∧ e.mutatesRepo = false := by
  have hrun : BisectRunner.run r env =
      (2, r.state,
        [Event.printBanner, Event.gitQuery "log -1 good",
          Event.gitQuery "log -1 bad", Event.printConfig,
          Event.dryBisectStart, Event.bisectReset] ++
          (BisectRunner.validate env).2) := by
    simp [BisectRunner.run, h]
  rw [hrun]
  refine ⟨rfl, rfl, ?_⟩
  intro e he
  rw [List.mem_append] at he
  rcases he with he | he
  · simp at he
    rcases he with rfl | rfl | rfl | rfl | rfl | rfl <;>
      simp [Event.startsSession, Event.mutatesRepo]
  · exact validate_events_safe env e he

/-- C3 witness: a run over a missing repository directory. -/
theorem C3_validation_failure_exits_2_witness :
    (BisectRunner.run (mkRunner none (mkState []))
        { repo_isdir := false }).1 = 2 ∧
    (BisectRunner.run (mkRunner none (mkState []))
        { repo_isdir := false }).2.1 = mkState [] ∧
    ∀ e ∈ (BisectRunner.run (mkRunner none (mkState []))
        { repo_isdir := false }).2.2,
      e.startsSession = false ∧ e.mutatesRepo = false :=
  C3_validation_failure_exits_2 (mkRunner none (mkState []))
    { repo_isdir := false } (by decide)

/-- C2 counterexample: when the transcript has no marker line the
orchestrator does substitute the currently checked-out commit: with the
HEAD fallback available, the verdict is that commit and the run reports
success with status "completed" rather than a failure with status
"aborted". -/
theorem C2_counterexample :
    scanVerdict ["running bisect"] = none ∧
    run_bisect_verdict ["running bisect"] (some hex40c) = some hex40c ∧
    (BisectRunner.run (mkRunner none (mkState [])) envC2).1 = 0 ∧
    (BisectRunner.run (mkRunner none (mkState [])) envC2).2.1.status =
      "completed" ∧
    (BisectRunner.run (mkRunner none (mkState [])) envC2).2.1.found_bad_commit
      = some hex40c := by
  refine ⟨rfl, rfl, rfl, rfl, rfl⟩

/-- C2 amended: when the transcript contains no marker line carrying a
forty-hex identifier, the verdict falls back to the currently checked-out
commit; only when that fallback is itself unavailable or empty does the
orchestrator report no verdict, in which case the run is a failure with
exit code 1, status "aborted", and no substituted result. -/
theorem C2_no_marker_verdict (r : Runner) (env : RunEnv)
    (hv : (BisectRunner.validate env).1 = true)
    (hd : r.dry_run = false)
    (hres : r.resuming = false)
    (hs : scanVerdict env.log_lines = none) :
    run_bisect_verdict env.log_lines env.head_fallback = env.head_fallback ∧
    (pyTruthy env.head_fallback = false →
      (BisectRunner.run r env).1 = 1 ∧
      (BisectRunner.run r env).2.1.status = "aborted" ∧
      (BisectRunner.run r env).2.1.found_bad_commit =
        r.state.found_bad_commit ∧
      (BisectRunner.run r env).2.1.steps = r.state.steps) := by
  constructor
  · simp [run_bisect_verdict, hs]
  · intro hf
    have hverdict : run_bisect_verdict env.log_lines env.head_fallback =
        env.head_fallback := by simp [run_bisect_verdict, hs]
    simp only [BisectRunner.run, hv, hd, hres, hverdict, hf, hs]
    cases r.use_worktree <;> simp

/-- C2 amended witness: a markerless transcript with the HEAD fallback
failing. -/
theorem C2_no_marker_verdict_witness :
    run_bisect_verdict ["bisecting"] none = none ∧
    (BisectRunner.run (mkRunner none (mkState []))
      { log_lines := ["bisecting"] }).1 = 1 ∧
    (BisectRunner.run (mkRunner none (mkState []))
      { log_lines := ["bisecting"] }).2.1.status = "aborted" :=
  ⟨(C2_no_marker_verdict (mkRunner none (mkState []))
      { log_lines := ["bisecting"] } (by decide) rfl rfl (by decide)).1,
    ((C2_no_marker_verdict (mkRunner none (mkState []))
      { log_lines := ["bisecting"] } (by decide) rfl rfl (by decide)).2
        rfl).1,
    ((C2_no_marker_verdict (mkRunner none (mkState []))
      { log_lines := ["bisecting"] } (by decide) rfl rfl (by decide)).2
        rfl).2.1⟩

/-- C6: every `run_test` invocation appends exactly one new typed step —
carrying the tested commit, the mapped result, the raw exit code, the
timestamp and the duration — to the step history, and, with a state file
configured, its final action before returning is persisting the whole
post-append state; moreover no state operation of the orchestrator ever
removes or mutates a previously recorded step: each one extends the step
history, so the history is append-only across the run. -/
theorem C6_run_test_appends_and_saves (r : Runner) (env : TestEnv)
    (commit wd : String) (hsf : r.state_file.isSome) :
    (∃ s : BisectStep,
      (BisectRunner.run_test r env commit wd).2.1.state.steps =
        r.state.steps ++ [StepEntry.typed s] ∧
      s.commit = commit ∧
      s.exit_code = (BisectRunner.run_test r env commit wd).1 ∧
      s.result = exit_code_to_result
        (BisectRunner.run_test r env commit wd).1 ∧
      s.timestamp = env.now_iso ∧
      s.duration_seconds = env.t_end - env.t_start) ∧
    ((BisectRunner.run_test r env commit wd).2.2).getLast? =
      some (Event.saveState
        (BisectRunner.run_test r env commit wd).2.1.state) ∧
    (∀ (op : StateOp) (st : BisectState),
      ∃ t, (applyOp op st).steps = st.steps ++ t) := by
  rw [Option.isSome_iff_exists] at hsf
  obtain ⟨f, hf⟩ := hsf
  refine ⟨⟨⟨commit,
      exit_code_to_result (BisectRunner.run_test r env commit wd).1,
      (BisectRunner.run_test r env commit wd).1, env.now_iso,
      env.t_end - env.t_start⟩,
    rfl, rfl, rfl, rfl, rfl, rfl⟩, ?_, ?_⟩
  · simp [BisectRunner.run_test, saveEvs, hf]
  · intro op st
    cases op with
    | addStep s => exact ⟨[StepEntry.typed s], rfl⟩
    | setStatus x => exact ⟨[], by simp [applyOp]⟩
    | setFound c => exact ⟨[], by simp [applyOp]⟩
    | setWorktree p => exact ⟨[], by simp [applyOp]⟩

/-- C6 witness: a pass/fail invocation with a configured state file. -/
theorem C6_run_test_appends_and_saves_witness :
    (∃ s : BisectStep,
      (BisectRunner.run_test (mkRunner (some "st.json") (mkState []))
          ⟨Except.ok 1, 0, 2, "t"⟩ "c7" "/repo").2.1.state.steps =
        (mkState []).steps ++ [StepEntry.typed s] ∧
      s.commit = "c7" ∧
      s.exit_code = (BisectRunner.run_test (mkRunner (some "st.json")
        (mkState [])) ⟨Except.ok 1, 0, 2, "t"⟩ "c7" "/repo").1 ∧
      s.result = exit_code_to_result
        (BisectRunner.run_test (mkRunner (some "st.json") (mkState []))
          ⟨Except.ok 1, 0, 2, "t"⟩ "c7" "/repo").1 ∧
      s.timestamp = "t" ∧ s.duration_seconds = 2 - 0) ∧
    ((BisectRunner.run_test (mkRunner (some "st.json") (mkState []))
        ⟨Except.ok 1, 0, 2, "t"⟩ "c7" "/repo").2.2).getLast? =
      some (Event.saveState
        (BisectRunner.run_test (mkRunner (some "st.json") (mkState []))
          ⟨Except.ok 1, 0, 2, "t"⟩ "c7" "/repo").2.1.state) ∧
    (∀ (op : StateOp) (st : BisectState),
      ∃ t, (applyOp op st).steps = st.steps ++ t) :=
  C6_run_test_appends_and_saves (mkRunner (some "st.json") (mkState []))
    ⟨Except.ok 1, 0, 2, "t"⟩ "c7" "/repo" (by decide)

/-- C5 counterexample: a state holding a loosely-typed step record does not
round-trip to an equal value — loading the saved document yields the state
with that step normalized to the typed shape, which Python equality (and
equality here) distinguishes from the original. -/
theorem C5_counterexample :
    BisectState.load (some (mkState [StepEntry.loose looseStep0]).save) =
      Except.ok (mkState [StepEntry.typed ⟨"c1", "good", 0, "t", 10⟩]) ∧
    BisectState.load (some (mkState [StepEntry.loose looseStep0]).save) ≠
      Except.ok (mkState [StepEntry.loose looseStep0]) := by
  refine ⟨rfl, ?_⟩
  decide

/-- C5 amended: for every state whose step history is in the typed
BisectStep shape — in particular every state `load` produces, including
from documents saved out of the loosely-typed step shape — loading the
saved document yields a state equal to the original. -/
theorem C5_roundtrip_typed (rp br gc bc ts : String) (wt : Option String)
    (sa : String) (l : List BisectStep) (cc fbc : Option String)
    (status : String) :
    BisectState.load (some (BisectState.save
        ⟨rp, br, gc, bc, ts, wt, sa, l.map StepEntry.typed,
          cc, fbc, status⟩)) =
      Except.ok ⟨rp, br, gc, bc, ts, wt, sa, l.map StepEntry.typed,
        cc, fbc, status⟩ := by
  have h : ∀ e ∈ l.map StepEntry.typed, e.wf := by
    intro e he
    rw [List.mem_map] at he
    obtain ⟨s, _, rfl⟩ := he
    trivial
  have hrt := load_save_wf
    ⟨rp, br, gc, bc, ts, wt, sa, l.map StepEntry.typed, cc, fbc, status⟩ h
  simpa [BisectState.normalize, normalize_map_typed] using hrt

/-- C8 counterexample: on a malformed document missing its required fields,
`load` fails with the raw missing-key error, not with a dedicated
corrupt-state error — the source defines no `CorruptStateError`. -/
theorem C8_counterexample :
    BisectState.load (some (Json.obj [])) =
      Except.error (PyExc.keyError "repo_path") ∧
    PyExc.keyError "repo_path" ≠ PyExc.corruptState := by
  exact ⟨rfl, by decide⟩

/-- C8 amended: `load` accepts step entries in either the typed or the
loosely-typed shape, normalizing both into typed steps on read; and on a
malformed document it fails — with the json decode error when unparseable,
with a missing-key error when a required top-level field is absent, and
with a missing-keyword error when a step record lacks a required field —
rather than with a dedicated `CorruptStateError`, which the source does not
define. -/
theorem C8_load_two_shapes_and_malformed :
    (∀ st : BisectState, (∀ e ∈ st.steps, e.wf) →
      BisectState.load (some st.save) = Except.ok st.normalize ∧
      ∀ e ∈ st.normalize.steps, ∃ s, e = StepEntry.typed s) ∧
    BisectState.load none = Except.error PyExc.jsonDecodeError ∧
    (∀ kvs, jlookup kvs "repo_path" = none →
      BisectState.load (some (Json.obj kvs)) =
        Except.error (PyExc.keyError "repo_path")) ∧
    (∀ d : StepDict, d.commit = none →
      stepEntryFromJson (StepEntry.loose d).toJson =
        Except.error (PyExc.typeError "commit")) := by
  refine ⟨?_, rfl, ?_, ?_⟩
  · intro st h
    refine ⟨load_save_wf st h, ?_⟩
    intro e he
    simp only [BisectState.normalize, List.mem_map] at he
    obtain ⟨x, _, rfl⟩ := he
    cases x with
    | typed s => exact ⟨s, rfl⟩
    | loose d => exact ⟨d.toStepD, rfl⟩
  · intro kvs hk
    simp [BisectState.load, reqStr, hk, Bind.bind, Except.bind]
  · intro d hd
    obtain ⟨dc, dr, de, dt, dq⟩ := d
    have hdc : dc = none := hd
    subst hdc
    cases dr <;> cases de <;> cases dt <;> cases dq <;> rfl

/-- C8 witness: a one-loose-step state normalized on load, and the empty
document rejected for its missing required field. -/
theorem C8_load_two_shapes_and_malformed_witness :
    BisectState.load (some (mkState [StepEntry.loose looseStep0]).save) =
      Except.ok (mkState [StepEntry.loose looseStep0]).normalize ∧
    BisectState.load (some (Json.obj [("status", Json.str "aborted")])) =
      Except.error (PyExc.keyError "repo_path") :=
  ⟨(C8_load_two_shapes_and_malformed.1
      (mkState [StepEntry.loose looseStep0])
      (by
        intro e he
        simp only [mkState, List.mem_singleton] at he
        subst he
        exact ⟨rfl, rfl, rfl, rfl, rfl⟩)).1,
    C8_load_two_shapes_and_malformed.2.2.1
      [("status", Json.str "aborted")] rfl⟩

end GitBisectTool
